import Mathlib

/-!
Shallow embedding of the layout script
`submissions/KLayout Python/EBeam_LukasChrostowski_MZI_1310.py`.

The script is a linear sequence of calls into the SiEPIC / KLayout
libraries.  We model a run of the script as the list of externally
visible operations it performs (library calls, shape insertions,
prints), together with the exception it raises, if any.  The libraries
themselves are external collaborators and are not reimplemented; each
call is recorded as an `Op` with exactly the arguments the script
passes.  Quantities the script reads from its environment (the
installed SiEPIC version, the `Python_Env` mode, the result of
`os.path` on `__file__`, and the error count returned by
`layout_check`) are fields of an `Env` record.
-/

namespace MZI

/-- A placement transform, as built by `Trans(Trans.R0, x, y)`:
a named rotation and an integer displacement in database units. -/
structure Trans where
  rot : String
  x : Int
  y : Int
  deriving DecidableEq, Repr

/-- One externally visible operation performed by the script. -/
inductive Op where
  /-- `import siepic_ebeam_pdk` (only when `Python_Env == 'Script'`). -/
  | importPdk : Op
  /-- A `print(...)` call with the printed text. -/
  | printLine (s : String) : Op
  /-- `new_layout(tech_name, top_cell_name, GUI=True, overwrite=True)`. -/
  | newLayout (tech topName : String) (gui overwrite : Bool) : Op
  /-- `floorplan(cell, w, h)` on the named top cell. -/
  | floorplan (cellName : String) (w h : Nat) : Op
  /-- `ly.create_cell(name, library, ...)`. -/
  | createCell (cellName libName : String) : Op
  /-- `cell.insert(CellInstArray(c.cell_index(), t))` of the named library cell. -/
  | insertInst (cellName : String) (t : Trans) : Op
  /-- Insertion of a `Text` shape with the given content at transform `t`. -/
  | insertText (content : String) (t : Trans) : Op
  /-- `connect_cell(fromInst, fromPin, toCell, toPin)`, whose result is
  bound to the instance named `newInst`. -/
  | connectCell (fromInst fromPin toCell toPin newInst : String) : Op
  /-- `connect_pins_with_waveguide(instA, pinA, instB, pinB,
  waveguide_type=wgType, turtle_B=turtleB)`. -/
  | connectWaveguide (instA pinA instB pinB wgType : String) (turtleB : List Int) : Op
  /-- Evaluation of a Python name that is not defined anywhere in the
  script; in a real run this raises `NameError`. -/
  | useVar (varName : String) : Op
  /-- `zoom_out(cell)`. -/
  | zoomOut (cellName : String) : Op
  /-- `export_layout(cell, path, filename, relative_path, format, screenshot)`:
  the flattening export routine that removes PCells. -/
  | exportLayout (cellName path filename relPath fmt : String) (screenshot : Bool) : Op
  /-- `ly.write(fileOut)`: direct write preserving PCells. -/
  | writeLayout (fileOut : String) : Op
  /-- `layout_check(cell, verbose=False, GUI=True, file_rdb=fileRdb)`. -/
  | layoutCheck (cellName fileRdb : String) : Op
  /-- `klive.show(fileOut, lyrdb_filename=..., technology=...)`. -/
  | kliveShow (fileOut lyrdbFilename technology : String) : Op
  deriving DecidableEq, Repr

/-- `designer_name = 'LukasChrostowski'` (line 24). -/
def designer_name : String := "LukasChrostowski"

/-- `top_cell_name = 'EBeam_%s_MZI' % designer_name` (line 25). -/
def top_cell_name : String := "EBeam_" ++ designer_name ++ "_MZI"

/-- `export_type = 'static'` (line 26). -/
def export_type : String := "static"

/-- `tech_name = 'EBeam'` (line 46). -/
def tech_name : String := "EBeam"

/-- `waveguide_type1` (line 63). -/
def waveguide_type1 : String := "SiN Strip TE 1310 nm, w=750 nm"

/-- `waveguide_type2` (line 64). -/
def waveguide_type2 : String := "SiN Strip TE 1310 nm, w=800 nm"

/-- `waveguide_type_delay` (line 65). -/
def waveguide_type_delay : String := "SiN routing TE 1550 nm (compound waveguide)"

/-- Drop trailing zero components of a release version, as
`packaging.version` does when comparing releases. -/
def stripZeros (l : List Nat) : List Nat :=
  (l.reverse.dropWhile (fun c => c == 0)).reverse

/-- Strict lexicographic order on version component lists. -/
def lexLt : List Nat → List Nat → Bool
  | [], [] => false
  | [], _ :: _ => true
  | _ :: _, [] => false
  | a :: as, b :: bs => a < b || (a == b && lexLt as bs)

/-- `version.parse(x) < version.parse(y)` for plain release versions,
modelling the comparison on line 49. -/
def versionLt (x y : List Nat) : Bool :=
  lexLt (stripZeros x) (stripZeros y)

/-- The version the guard on line 49 compares against: `"0.5.4"`. -/
def siepicMinVersion : List Nat := [0, 5, 4]

/-- The argument tuple of the `Exception` raised on line 50. -/
def versionErrorMsg : String × String :=
  ("Errors", "This example requires SiEPIC-Tools version 0.5.4 or greater.")

/-- The run environment: everything the script reads from outside.
`path` is `os.path.dirname(os.path.realpath(__file__))` and `filename`
is `os.path.splitext(os.path.basename(__file__))[0]` (lines 137-138),
both opaque results of `os` calls.  `numErrors` is the value returned
by `layout_check` on line 147; modelled from the spec: `layout_check`
is external library code, and per the spec it produces a printed error
count that is a non-negative integer, hence a `Nat`. -/
structure Env where
  siepicVersion : List Nat
  pythonEnv : String
  path : String
  filename : String
  numErrors : Nat

/-- `os.path.join` of two components, POSIX style. -/
def joinPath (a b : String) : String := a ++ "/" ++ b

/-- Modelled from the spec: `export_layout` is external SiEPIC library
code not present in this repository; per the spec the exported geometry
file is written to the directory reached from `path` via
`relative_path`, named after the script basename with the format
extension. -/
def export_layout_file (path filename relPath fmt : String) : String :=
  joinPath (joinPath path relPath) (filename ++ "." ++ fmt)

/-- The transform of the first grating coupler (lines 79-81):
`Trans(Trans.R0, 60000, 16000)`. -/
def transGC1 : Trans := ⟨"R0", 60000, 16000⟩

/-- The transform of the second grating coupler (lines 82-83):
`Trans(Trans.R0, 60000, 16000 + 127000)`. -/
def transGC2 : Trans := ⟨"R0", 60000, 16000 + 127000⟩

/-- Body of the `if 0:` branch (lines 100-131), modelled up to and
including the evaluation of the undefined name `cell_ebeam_y_dream` on
line 117, past which a run could not proceed (it would raise
`NameError`). -/
def deadBranchOps : List Op :=
  [Op.createCell "spiral_paperclip" "EBeam_Beta",
   Op.insertInst "ebeam_GC_SiN_TE_1310_8deg" ⟨"R0", 60000, 205000⟩,
   Op.insertInst "ebeam_GC_SiN_TE_1310_8deg" ⟨"R0", 60000, 205000 + 127000⟩,
   Op.insertText ("opt_in_TE_1550_device_" ++ designer_name ++ "_MZI3")
     ⟨"R0", 60000, 205000 + 127000⟩,
   Op.useVar "cell_ebeam_y_dream"]

/-- The lyrdb report path `os.path.join(path, filename + '.lyrdb')`
(line 146). -/
def lyrdbFile (env : Env) : String :=
  joinPath env.path (env.filename ++ ".lyrdb")

/-- The value of `file_out` after the export step: the return of
`export_layout` in the static branch, or the joined path in the PCell
branch (lines 139-143). -/
def fileOutOf (exportType : String) (env : Env) : String :=
  if exportType = "static" then
    export_layout_file env.path env.filename ".." "oas"
  else
    joinPath (joinPath env.path "..") (env.filename ++ ".oas")

/-- Operations performed before the version guard (lines 40-44): the
conditional PDK import and the banner print. -/
def preGuardOps (env : Env) : List Op :=
  (if env.pythonEnv = "Script" then [Op.importPdk] else [])
  ++ [Op.printLine "EBeam_LukasChrostowski_MZI layout script"]

/-- Operations performed after the version guard passes (lines 57-153),
parameterized by the `export_type` configuration constant. -/
def mainOps (exportType : String) (env : Env) : List Op :=
  [Op.newLayout tech_name top_cell_name true true,
   Op.floorplan top_cell_name 605000 410000,
   Op.createCell "ebeam_GC_SiN_TE_1310_8deg" "EBeam-SiN",
   Op.createCell "ebeam_YBranch_te1310" "EBeam-SiN",
   Op.createCell "taper_bezier" "EBeam_Beta",
   Op.insertInst "ebeam_GC_SiN_TE_1310_8deg" transGC1,
   Op.insertInst "ebeam_GC_SiN_TE_1310_8deg" transGC2,
   Op.insertText ("opt_in_TE_1310_device_" ++ designer_name ++ "_MZI1") transGC2,
   Op.connectCell "instGC1" "opt1" "taper_bezier" "opt1" "instTaper1",
   Op.connectCell "instTaper1" "opt2" "ebeam_YBranch_te1310" "opt1" "instY1",
   Op.connectCell "instGC2" "opt1" "taper_bezier" "opt1" "instTaper2",
   Op.connectCell "instTaper2" "opt2" "ebeam_YBranch_te1310" "opt1" "instY2",
   Op.connectWaveguide "instY1" "opt2" "instY2" "opt3" waveguide_type2 [60, -90],
   Op.connectWaveguide "instY1" "opt3" "instY2" "opt2" waveguide_type2 [60 + 50, -90]]
  ++ (if (0 : Int) ≠ 0 then deadBranchOps else [])
  ++ [Op.zoomOut top_cell_name]
  ++ (if exportType = "static" then
        [Op.exportLayout top_cell_name env.path env.filename ".." "oas" true]
      else
        [Op.writeLayout (joinPath (joinPath env.path "..") (env.filename ++ ".oas"))])
  ++ [Op.layoutCheck top_cell_name (lyrdbFile env),
      Op.printLine ("Number of errors: " ++ toString env.numErrors)]
  ++ (if env.pythonEnv = "Script" then
        [Op.kliveShow (fileOutOf exportType env) (lyrdbFile env) tech_name]
      else [])

/-- A run of the script with a given value of the `export_type`
configuration constant: the trace of operations performed, and the
exception raised, if any.  The version guard (lines 48-50) sits between
`preGuardOps` and `mainOps`. -/
def runScriptWith (exportType : String) (env : Env) : List Op × Option (String × String) :=
  if versionLt env.siepicVersion siepicMinVersion then
    (preGuardOps env, some versionErrorMsg)
  else
    (preGuardOps env ++ mainOps exportType env, none)

/-- A run of the script as committed, with `export_type = 'static'`. -/
def runScript (env : Env) : List Op × Option (String × String) :=
  runScriptWith export_type env

/-- Operations that create or modify layout content. -/
def isLayoutCreationOp : Op → Bool
  | .newLayout .. => true
  | .floorplan .. => true
  | .createCell .. => true
  | .insertInst .. => true
  | .insertText .. => true
  | .connectCell .. => true
  | .connectWaveguide .. => true
  | _ => false

/-- Insertion of a grating-coupler instance. -/
def isGCInsert : Op → Bool
  | .insertInst c _ => c == "ebeam_GC_SiN_TE_1310_8deg"
  | _ => false

/-- Insertion of a text label. -/
def isTextInsert : Op → Bool
  | .insertText .. => true
  | _ => false

/-- A `new_layout` call. -/
def isNewLayout : Op → Bool
  | .newLayout .. => true
  | _ => false

/-- A `floorplan` call. -/
def isFloorplan : Op → Bool
  | .floorplan .. => true
  | _ => false

/-- A `connect_cell` call. -/
def isConnectCell : Op → Bool
  | .connectCell .. => true
  | _ => false

/-- A `connect_pins_with_waveguide` call. -/
def isConnectWaveguide : Op → Bool
  | .connectWaveguide .. => true
  | _ => false

/-- The geometry-export step: either export routine. -/
def isExportStep : Op → Bool
  | .exportLayout .. => true
  | .writeLayout .. => true
  | _ => false

/-- A `layout_check` call. -/
def isLayoutCheckOp : Op → Bool
  | .layoutCheck .. => true
  | _ => false

/-- Evaluation of an undefined name. -/
def isUseVar : Op → Bool
  | .useVar .. => true
  | _ => false

/-- The waveguide type and turtle hint of a routing call. -/
def wgTypeAndTurtle : Op → String × List Int
  | .connectWaveguide _ _ _ _ w t => (w, t)
  | _ => ("", [])

/-- Whether an operation routes a waveguide with the given preset. -/
def usesWG (w : String) : Op → Bool
  | .connectWaveguide _ _ _ _ w2 _ => w2 == w
  | _ => false

end MZI
namespace MZI

/-- Helper: the prefix of the trace that precedes the export step in a
run with the committed configuration. -/
def exportPrefix (env : Env) : List Op :=
  preGuardOps env ++
    [Op.newLayout tech_name top_cell_name true true,
     Op.floorplan top_cell_name 605000 410000,
     Op.createCell "ebeam_GC_SiN_TE_1310_8deg" "EBeam-SiN",
     Op.createCell "ebeam_YBranch_te1310" "EBeam-SiN",
     Op.createCell "taper_bezier" "EBeam_Beta",
     Op.insertInst "ebeam_GC_SiN_TE_1310_8deg" transGC1,
     Op.insertInst "ebeam_GC_SiN_TE_1310_8deg" transGC2,
     Op.insertText ("opt_in_TE_1310_device_" ++ designer_name ++ "_MZI1") transGC2,
     Op.connectCell "instGC1" "opt1" "taper_bezier" "opt1" "instTaper1",
     Op.connectCell "instTaper1" "opt2" "ebeam_YBranch_te1310" "opt1" "instY1",
     Op.connectCell "instGC2" "opt1" "taper_bezier" "opt1" "instTaper2",
     Op.connectCell "instTaper2" "opt2" "ebeam_YBranch_te1310" "opt1" "instY2",
     Op.connectWaveguide "instY1" "opt2" "instY2" "opt3" waveguide_type2 [60, -90],
     Op.connectWaveguide "instY1" "opt3" "instY2" "opt2" waveguide_type2 [60 + 50, -90],
     Op.zoomOut top_cell_name]

/-- C1: a run raises an exception exactly when the installed SiEPIC
version is strictly below 0.5.4; in that case the exception carries the
fixed message from line 50 and the trace up to the exception contains
no layout-creation operation (no new layout, no top cell, no instance
placement, no connection). -/
theorem claim_C1 (env : Env) :
    ((runScript env).2 ≠ none ↔ versionLt env.siepicVersion siepicMinVersion = true) ∧
    (versionLt env.siepicVersion siepicMinVersion = true →
      (runScript env).2 = some versionErrorMsg ∧
      ∀ op ∈ (runScript env).1, isLayoutCreationOp op = false) := by
  constructor
  · unfold runScript runScriptWith
    by_cases hv : versionLt env.siepicVersion siepicMinVersion <;> simp [hv]
  · intro hv
    constructor
    · simp [runScript, runScriptWith, hv]
    · intro op hop
      simp [runScript, runScriptWith, hv, preGuardOps] at hop
      by_cases hp : env.pythonEnv = "Script" <;> simp [hp] at hop
      · rcases hop with h1 | h1 <;> simp [h1, isLayoutCreationOp]
      · simp [hop, isLayoutCreationOp]

/-- Witness for C1 at the concrete version 0.5.3 (below the minimum). -/
theorem claim_C1_witness :
    (runScript ⟨[0, 5, 3], "Script", "pA", "fA", 0⟩).2 = some versionErrorMsg ∧
    ∀ op ∈ (runScript ⟨[0, 5, 3], "Script", "pA", "fA", 0⟩).1,
      isLayoutCreationOp op = false :=
  (claim_C1 ⟨[0, 5, 3], "Script", "pA", "fA", 0⟩).2 (by decide)

/-- C2: in the executed path exactly two waveguides are routed between
the two Y-branch instances, crossed: opt2 of the first Y-branch to
opt3 of the second and opt3 of the first to opt2 of the second, each
with the named preset `waveguide_type2` and an explicit turtle bend
hint. -/
theorem claim_C2 (env : Env)
    (h : versionLt env.siepicVersion siepicMinVersion = false) :
    ((runScript env).1.filter isConnectWaveguide) =
      [Op.connectWaveguide "instY1" "opt2" "instY2" "opt3" waveguide_type2 [60, -90],
       Op.connectWaveguide "instY1" "opt3" "instY2" "opt2" waveguide_type2 [60 + 50, -90]] := by
  by_cases hp : env.pythonEnv = "Script" <;>
    simp [runScript, runScriptWith, h, mainOps, preGuardOps, hp, isConnectWaveguide,
      export_type, List.filter]

/-- Witness for C2 at the concrete version 0.5.4. -/
theorem claim_C2_witness :
    ((runScript ⟨[0, 5, 4], "Script", "pB", "fB", 0⟩).1.filter isConnectWaveguide) =
      [Op.connectWaveguide "instY1" "opt2" "instY2" "opt3" waveguide_type2 [60, -90],
       Op.connectWaveguide "instY1" "opt3" "instY2" "opt2" waveguide_type2 [60 + 50, -90]] :=
  claim_C2 ⟨[0, 5, 4], "Script", "pB", "fB", 0⟩ (by decide)

/-- C3: on each arm the components are chain-connected with
`connect_cell` in the order grating coupler, taper, Y-branch: coupler
pin opt1 to taper pin opt1, then taper pin opt2 to Y-branch pin opt1. -/
theorem claim_C3 (env : Env)
    (h : versionLt env.siepicVersion siepicMinVersion = false) :
    ((runScript env).1.filter isConnectCell) =
      [Op.connectCell "instGC1" "opt1" "taper_bezier" "opt1" "instTaper1",
       Op.connectCell "instTaper1" "opt2" "ebeam_YBranch_te1310" "opt1" "instY1",
       Op.connectCell "instGC2" "opt1" "taper_bezier" "opt1" "instTaper2",
       Op.connectCell "instTaper2" "opt2" "ebeam_YBranch_te1310" "opt1" "instY2"] := by
  by_cases hp : env.pythonEnv = "Script" <;>
    simp [runScript, runScriptWith, h, mainOps, preGuardOps, hp, isConnectCell,
      export_type, List.filter]

/-- Witness for C3 at the concrete version 0.6.0. -/
theorem claim_C3_witness :
    ((runScript ⟨[0, 6, 0], "Script", "pC", "fC", 0⟩).1.filter isConnectCell) =
      [Op.connectCell "instGC1" "opt1" "taper_bezier" "opt1" "instTaper1",
       Op.connectCell "instTaper1" "opt2" "ebeam_YBranch_te1310" "opt1" "instY1",
       Op.connectCell "instGC2" "opt1" "taper_bezier" "opt1" "instTaper2",
       Op.connectCell "instTaper2" "opt2" "ebeam_YBranch_te1310" "opt1" "instY2"] :=
  claim_C3 ⟨[0, 6, 0], "Script", "pC", "fC", 0⟩ (by decide)

/-- C4: exactly two grating-coupler instances are inserted, both with
rotation R0 at x coordinate 60000, the second exactly 127000 database
units above the first. -/
theorem claim_C4 (env : Env)
    (h : versionLt env.siepicVersion siepicMinVersion = false) :
    ((runScript env).1.filter isGCInsert) =
      [Op.insertInst "ebeam_GC_SiN_TE_1310_8deg" transGC1,
       Op.insertInst "ebeam_GC_SiN_TE_1310_8deg" transGC2] ∧
    transGC1.rot = "R0" ∧ transGC2.rot = "R0" ∧
    transGC1.x = 60000 ∧ transGC2.x = 60000 ∧
    transGC2.y = transGC1.y + 127000 := by
  refine ⟨?_, rfl, rfl, rfl, rfl, by decide⟩
  by_cases hp : env.pythonEnv = "Script" <;>
    simp [runScript, runScriptWith, h, mainOps, preGuardOps, hp, isGCInsert,
      export_type, List.filter]

/-- Witness for C4 at the concrete version 1.0. -/
theorem claim_C4_witness :
    ((runScript ⟨[1, 0], "x", "pD", "fD", 0⟩).1.filter isGCInsert) =
      [Op.insertInst "ebeam_GC_SiN_TE_1310_8deg" transGC1,
       Op.insertInst "ebeam_GC_SiN_TE_1310_8deg" transGC2] ∧
    transGC1.rot = "R0" ∧ transGC2.rot = "R0" ∧
    transGC1.x = 60000 ∧ transGC2.x = 60000 ∧
    transGC2.y = transGC1.y + 127000 :=
  claim_C4 ⟨[1, 0], "x", "pD", "fD", 0⟩ (by decide)

/-- C5: under a compatible version exactly one new layout with one top
cell is created, named by the designer-name template, which evaluates
to EBeam_LukasChrostowski_MZI, and a single fixed floor-plan rectangle
of 605000 by 410000 database units is drawn on it. -/
theorem claim_C5 (env : Env)
    (h : versionLt env.siepicVersion siepicMinVersion = false) :
    top_cell_name = "EBeam_" ++ designer_name ++ "_MZI" ∧
    top_cell_name = "EBeam_LukasChrostowski_MZI" ∧
    ((runScript env).1.filter isNewLayout) =
      [Op.newLayout tech_name top_cell_name true true] ∧
    ((runScript env).1.filter isFloorplan) =
      [Op.floorplan top_cell_name 605000 410000] := by
  refine ⟨rfl, by decide, ?_, ?_⟩ <;>
    by_cases hp : env.pythonEnv = "Script" <;>
      simp [runScript, runScriptWith, h, mainOps, preGuardOps, hp, isNewLayout,
        isFloorplan, export_type, List.filter]

/-- Witness for C5 at the concrete version 0.5.5. -/
theorem claim_C5_witness :
    top_cell_name = "EBeam_" ++ designer_name ++ "_MZI" ∧
    top_cell_name = "EBeam_LukasChrostowski_MZI" ∧
    ((runScript ⟨[0, 5, 5], "x", "pE", "fE", 0⟩).1.filter isNewLayout) =
      [Op.newLayout tech_name top_cell_name true true] ∧
    ((runScript ⟨[0, 5, 5], "x", "pE", "fE", 0⟩).1.filter isFloorplan) =
      [Op.floorplan top_cell_name 605000 410000] :=
  claim_C5 ⟨[0, 5, 5], "x", "pE", "fE", 0⟩ (by decide)

end MZI
namespace MZI

/-- Helper: the grating-coupler insertions of a committed run, shared
by the proofs about labels and placement. -/
theorem filter_isGCInsert_eq (env : Env)
    (h : versionLt env.siepicVersion siepicMinVersion = false) :
    ((runScript env).1.filter isGCInsert) =
      [Op.insertInst "ebeam_GC_SiN_TE_1310_8deg" transGC1,
       Op.insertInst "ebeam_GC_SiN_TE_1310_8deg" transGC2] := by
  by_cases hp : env.pythonEnv = "Script" <;>
    simp [runScript, runScriptWith, h, mainOps, preGuardOps, hp, isGCInsert,
      export_type, List.filter]

/-- C6: in the executed path exactly one text label is inserted, its
content is opt_in_TE_1310_device_LukasChrostowski_MZI1, and it is
placed at the transform of the second grating-coupler instance. -/
theorem claim_C6 (env : Env)
    (h : versionLt env.siepicVersion siepicMinVersion = false) :
    ((runScript env).1.filter isTextInsert) =
      [Op.insertText ("opt_in_TE_1310_device_" ++ designer_name ++ "_MZI1") transGC2] ∧
    ("opt_in_TE_1310_device_" ++ designer_name ++ "_MZI1") =
      "opt_in_TE_1310_device_LukasChrostowski_MZI1" ∧
    ((runScript env).1.filter isGCInsert).getLast? =
      some (Op.insertInst "ebeam_GC_SiN_TE_1310_8deg" transGC2) := by
  have hgc := filter_isGCInsert_eq env h
  refine ⟨?_, by decide, ?_⟩
  · by_cases hp : env.pythonEnv = "Script" <;>
      simp [runScript, runScriptWith, h, mainOps, preGuardOps, hp, isTextInsert,
        export_type, List.filter]
  · rw [hgc]; rfl

/-- Witness for C6 at the concrete version 0.5.4. -/
theorem claim_C6_witness :
    ((runScript ⟨[0, 5, 4], "x", "pF", "fF", 0⟩).1.filter isTextInsert) =
      [Op.insertText ("opt_in_TE_1310_device_" ++ designer_name ++ "_MZI1") transGC2] ∧
    ("opt_in_TE_1310_device_" ++ designer_name ++ "_MZI1") =
      "opt_in_TE_1310_device_LukasChrostowski_MZI1" ∧
    ((runScript ⟨[0, 5, 4], "x", "pF", "fF", 0⟩).1.filter isGCInsert).getLast? =
      some (Op.insertInst "ebeam_GC_SiN_TE_1310_8deg" transGC2) :=
  claim_C6 ⟨[0, 5, 4], "x", "pF", "fF", 0⟩ (by decide)

end MZI
namespace MZI

/-- C7: the export step is selected by the export_type flag.  When the
flag is static, the flattening export routine is called with OASIS
format and a screenshot, and its spec-given output location is the
parent directory of the script, named after the script basename;
otherwise the layout is written directly to that same location.  The
committed value of the flag is static. -/
theorem claim_C7 (et : String) (env : Env)
    (h : versionLt env.siepicVersion siepicMinVersion = false) :
    (et = "static" →
       ((runScriptWith et env).1.filter isExportStep) =
         [Op.exportLayout top_cell_name env.path env.filename ".." "oas" true] ∧
       export_layout_file env.path env.filename ".." "oas" =
         joinPath (joinPath env.path "..") (env.filename ++ ".oas")) ∧
    (et ≠ "static" →
       ((runScriptWith et env).1.filter isExportStep) =
         [Op.writeLayout (joinPath (joinPath env.path "..") (env.filename ++ ".oas"))]) ∧
    export_type = "static" := by
  refine ⟨fun hs => ⟨?_, by simp [export_layout_file, joinPath, String.append_assoc]⟩,
    fun hs => ?_, rfl⟩ <;>
    by_cases hp : env.pythonEnv = "Script" <;>
      simp [runScriptWith, h, mainOps, preGuardOps, hp, hs, isExportStep, List.filter]

/-- Witness for C7 at the static flag value and the concrete version
0.5.4. -/
theorem claim_C7_witness :
    ("static" = "static" →
       ((runScriptWith "static" ⟨[0, 5, 4], "x", "pG", "fG", 0⟩).1.filter isExportStep) =
         [Op.exportLayout top_cell_name "pG" "fG" ".." "oas" true] ∧
       export_layout_file "pG" "fG" ".." "oas" =
         joinPath (joinPath "pG" "..") ("fG" ++ ".oas")) ∧
    ("static" ≠ "static" →
       ((runScriptWith "static" ⟨[0, 5, 4], "x", "pG", "fG", 0⟩).1.filter isExportStep) =
         [Op.writeLayout (joinPath (joinPath "pG" "..") ("fG" ++ ".oas"))]) ∧
    export_type = "static" :=
  claim_C7 "static" ⟨[0, 5, 4], "x", "pG", "fG", 0⟩ (by decide)

/-- C8: in a committed run the trace decomposes as a prefix, then the
export step, then the verification call with its report file placed
alongside the script, then the print of the error count, then the
optional viewer launch; the prefix contains no verification and no
export step, and the decomposition holds for every error count, so
verification never gates export or preview. -/
theorem claim_C8 (env : Env)
    (h : versionLt env.siepicVersion siepicMinVersion = false) :
    ∃ pre mid,
      (runScript env).1 =
        pre ++ [Op.exportLayout top_cell_name env.path env.filename ".." "oas" true]
          ++ mid
          ++ [Op.layoutCheck top_cell_name (lyrdbFile env),
              Op.printLine ("Number of errors: " ++ toString env.numErrors)]
          ++ (if env.pythonEnv = "Script" then
                [Op.kliveShow (fileOutOf "static" env) (lyrdbFile env) tech_name]
              else []) ∧
      lyrdbFile env = joinPath env.path (env.filename ++ ".lyrdb") ∧
      (∀ op ∈ pre ++ mid, isLayoutCheckOp op = false ∧ isExportStep op = false) := by
  refine ⟨exportPrefix env, [], ?_, rfl, ?_⟩
  · simp [runScript, runScriptWith, h, mainOps, export_type, preGuardOps, fileOutOf,
      exportPrefix]
  · intro op hop
    have hall : ∀ x ∈ exportPrefix env ++ [],
        (!(isLayoutCheckOp x) && !(isExportStep x)) = true := by
      rw [← List.all_eq_true]
      by_cases hp : env.pythonEnv = "Script" <;>
        simp [exportPrefix, preGuardOps, hp] <;> decide
    have h2 := hall op hop
    simp only [Bool.and_eq_true, Bool.not_eq_true'] at h2
    exact h2

/-- Witness for C8 at the concrete version 0.5.4 with 7 verification
errors. -/
theorem claim_C8_witness :
    ∃ pre mid,
      (runScript ⟨[0, 5, 4], "Script", "pH", "fH", 7⟩).1 =
        pre ++ [Op.exportLayout top_cell_name "pH" "fH" ".." "oas" true]
          ++ mid
          ++ [Op.layoutCheck top_cell_name (lyrdbFile ⟨[0, 5, 4], "Script", "pH", "fH", 7⟩),
              Op.printLine ("Number of errors: " ++ toString (7 : Nat))]
          ++ (if "Script" = "Script" then
                [Op.kliveShow (fileOutOf "static" ⟨[0, 5, 4], "Script", "pH", "fH", 7⟩)
                  (lyrdbFile ⟨[0, 5, 4], "Script", "pH", "fH", 7⟩) tech_name]
              else []) ∧
      lyrdbFile ⟨[0, 5, 4], "Script", "pH", "fH", 7⟩ = joinPath "pH" ("fH" ++ ".lyrdb") ∧
      (∀ op ∈ pre ++ mid, isLayoutCheckOp op = false ∧ isExportStep op = false) :=
  claim_C8 ⟨[0, 5, 4], "Script", "pH", "fH", 7⟩ (by decide)

/-- C9: the alternate spiral-delay MZI branch is guarded by the
constant-false test of the literal 0, so its body, which contains the
evaluation of the undefined name cell_ebeam_y_dream, contributes
nothing to any run: no undefined-name evaluation appears in any trace,
and no operation of any trace belongs to the dead branch body. -/
theorem claim_C9 (env : Env) :
    ((if (0 : Int) ≠ 0 then deadBranchOps else []) = []) ∧
    Op.useVar "cell_ebeam_y_dream" ∈ deadBranchOps ∧
    (runScript env).1.filter isUseVar = [] ∧
    ∀ op ∈ (runScript env).1, op ∉ deadBranchOps := by
  refine ⟨by simp, by simp [deadBranchOps], ?_, ?_⟩
  · by_cases hp : env.pythonEnv = "Script" <;>
      by_cases hv : versionLt env.siepicVersion siepicMinVersion <;>
      simp [runScript, runScriptWith, hv, mainOps, preGuardOps, hp, isUseVar,
        export_type, List.filter]
  · intro op hop hmem
    simp [deadBranchOps] at hmem
    by_cases hp : env.pythonEnv = "Script" <;>
      by_cases hv : versionLt env.siepicVersion siepicMinVersion <;>
      simp [runScript, runScriptWith, hv, mainOps, preGuardOps, hp, export_type] at hop <;>
      rcases hmem with h1 | h1 | h1 | h1 | h1 <;> simp [h1] at hop <;>
      simp [transGC1, transGC2, designer_name] at hop

/-- Witness for C9 at a concrete environment. -/
theorem claim_C9_witness :
    ((if (0 : Int) ≠ 0 then deadBranchOps else []) = []) ∧
    Op.useVar "cell_ebeam_y_dream" ∈ deadBranchOps ∧
    (runScript ⟨[0, 5, 4], "Script", "pI", "fI", 0⟩).1.filter isUseVar = [] ∧
    ∀ op ∈ (runScript ⟨[0, 5, 4], "Script", "pI", "fI", 0⟩).1, op ∉ deadBranchOps :=
  claim_C9 ⟨[0, 5, 4], "Script", "pI", "fI", 0⟩

/-- C10: both executed waveguide routes use the 800 nm preset
waveguide_type2, the 750 nm preset waveguide_type1 is used by no
operation of the executed path, and the two turtle hints share their
second component while their first components differ by exactly 50. -/
theorem claim_C10 (env : Env)
    (h : versionLt env.siepicVersion siepicMinVersion = false) :
    ((runScript env).1.filter isConnectWaveguide).map wgTypeAndTurtle =
      [(waveguide_type2, [60, -90]), (waveguide_type2, [(60 : Int) + 50, -90])] ∧
    waveguide_type2 = "SiN Strip TE 1310 nm, w=800 nm" ∧
    (∀ op ∈ (runScript env).1, usesWG waveguide_type1 op = false) ∧
    ((60 : Int) + 50) - 60 = 50 := by
  refine ⟨?_, rfl, ?_, by decide⟩
  · by_cases hp : env.pythonEnv = "Script" <;>
      simp [runScript, runScriptWith, h, mainOps, preGuardOps, hp, isConnectWaveguide,
        export_type, List.filter, wgTypeAndTurtle]
  · intro op hop
    have hall : ∀ x ∈ (runScript env).1, (!(usesWG waveguide_type1 x)) = true := by
      rw [← List.all_eq_true]
      by_cases hp : env.pythonEnv = "Script" <;>
        simp [runScript, runScriptWith, h, mainOps, preGuardOps, hp, export_type,
          usesWG, waveguide_type1, waveguide_type2]
    have h2 := hall op hop
    simp only [Bool.not_eq_true'] at h2
    exact h2

/-- Witness for C10 at the concrete version 0.5.9. -/
theorem claim_C10_witness :
    ((runScript ⟨[0, 5, 9], "x", "pJ", "fJ", 0⟩).1.filter isConnectWaveguide).map
        wgTypeAndTurtle =
      [(waveguide_type2, [60, -90]), (waveguide_type2, [(60 : Int) + 50, -90])] ∧
    waveguide_type2 = "SiN Strip TE 1310 nm, w=800 nm" ∧
    (∀ op ∈ (runScript ⟨[0, 5, 9], "x", "pJ", "fJ", 0⟩).1,
      usesWG waveguide_type1 op = false) ∧
    ((60 : Int) + 50) - 60 = 50 :=
  claim_C10 ⟨[0, 5, 9], "x", "pJ", "fJ", 0⟩ (by decide)

end MZI
